import Mathlib

/-!
Shallow embedding of the `as_client` resource model: the property-descriptor
machinery and the paged resource collection of `as_client/model.py`, together
with the call shapes of `as_client/client.py` that they rely on
(`Client._fetch_resource`, `Client._get_resources`).

Conventions used throughout:
* Python `None` is the JSON value `J.null`; the distinct `_UNKNOWN` sentinel
  used by `_PropertyData` and `_ResourceCollection` is modelled by `Option`
  (`none` = `_UNKNOWN`).
* Fallible Python code is modelled with `Except`; raised exceptions are the
  `error` constructors.
* Stateful methods return the new state explicitly; methods that perform
  network fetches additionally return the list of fetch calls they made, so
  that "how many fetches happened" is a provable statement.
-/

namespace ASClient

/-- JSON-like values as passed around by the Python code (`J.null` models
Python `None`). -/
inductive J : Type
  | null
  | bool (b : Bool)
  | str (s : String)
  | int (n : Int)
  | arr (xs : List J)
  | obj (fields : List (String × J))

/-- Lookup of a key in a JSON object (`key in json` / `json[key]` /
`json.get(key)` on a dict payload). -/
def lookupKey : List (String × J) → String → Option J
  | [], _ => none
  | (k1, v) :: tl, k => if k1 == k then some v else lookupKey tl k

/-- Python dict assignment `json[key] = value`: replaces the existing entry
for the key, or appends a new one. -/
def jsonSet : List (String × J) → String → J → List (String × J)
  | [], k, v => [(k, v)]
  | (k1, v1) :: tl, k, v => if k1 == k then (k, v) :: tl else (k1, v1) :: jsonSet tl k v

/-- Model of `json.get('_embedded', {})` as used by `_EmbeddedProperty._update`.  In a
HAL payload the `_embedded` entry, when present, is a JSON object. -/
def embeddedObject (json : List (String × J)) : List (String × J) :=
  match lookupKey json "_embedded" with
  | some (J.obj fields) => fields
  | _ => []

/-- The `_Property` data descriptor's constructor state (`_Property.__init__`):
wire key, decode and encode functions, default value and writability.  `V` is
the decoded (Python-side) value type. -/
structure Property (V : Type) where
  json_name : String
  from_json : J → V
  to_json : V → J
  default : V
  writable : Bool

/-- Model of `_PropertyData`: the per-instance, per-field value store.  The stored
slots are `_local_value` and `_remote_value`; `none` models the `_UNKNOWN`
sentinel (distinct from a stored Python `None`, which is `some J.null`). -/
structure PropertyData (V : Type) where
  property : Property V
  localValue : Option V := none
  remoteValue : Option V := none

/-- The `_PropertyData.local_value` getter: the effective value — the local
value if known, else the remote value if known, else the descriptor's
default. -/
def PropertyData.local_value {V : Type} (data : PropertyData V) : V :=
  match data.localValue with
  | some v => v
  | none =>
    match data.remoteValue with
    | some v => v
    | none => data.property.default

/-- Model of `_PropertyData.needs_fetch`: true iff the remote value is still the
`_UNKNOWN` sentinel. -/
def PropertyData.needs_fetch {V : Type} (data : PropertyData V) : Bool :=
  data.remoteValue.isNone

/-- The per-instance state of a `_Resource` that the property machinery
touches: the `__properties` store map, and whether a `_client` is attached
(`_client` is only ever assigned an actual client object, by
`_Resource._update`, so attachment is a boolean). -/
structure Resource (V : Type) where
  properties : List (String × PropertyData V) := []
  hasClient : Bool := false

/-- Lookup in the `__properties` dict. -/
def lookupProp {V : Type} : List (String × PropertyData V) → String → Option (PropertyData V)
  | [], _ => none
  | (k1, d) :: tl, k => if k1 == k then some d else lookupProp tl k

/-- Python dict assignment on the `__properties` dict. -/
def setProp {V : Type} : List (String × PropertyData V) → String → PropertyData V →
    List (String × PropertyData V)
  | [], k, d => [(k, d)]
  | (k1, d1) :: tl, k, d => if k1 == k then (k, d) :: tl else (k1, d1) :: setProp tl k d

/-- Model of `_Property.get_data`: `props.setdefault(self.json_name, _PropertyData(self))`
— the existing store for the key, or a fresh one (both slots `_UNKNOWN`).
(The `setdefault` also inserts the fresh store into the dict; the inserted
store is indistinguishable from an absent one, so only the returned value is
modelled.) -/
def Property.get_data {V : Type} (p : Property V) (r : Resource V) : PropertyData V :=
  match lookupProp r.properties p.json_name with
  | some d => d
  | none => { property := p }

/-- The exception raised on the fetch path of `_Property.__get__`. -/
inductive AttrGetError : Type
  | typeError
  deriving DecidableEq

/-- The exception raised by `_Property.__set__` on a non-writable property
(`AttributeError`, the spec's `NotWritableError`). -/
inductive AttrSetError : Type
  | notWritable
  deriving DecidableEq

/-- Model of `_Property.__get__`.  The Boolean in the result records whether a fetch
was attempted (i.e. whether `client._fetch_resource` was called).

Two slips in the source are modelled faithfully:
* the guard is `if None not in (id, client)` where `id` is the Python
  BUILTIN function (the fetched identity is in the local variable `id_`);
  the builtin is never `None`, so the guard reduces to `client is not None`
  and ignores whether the identity is known;
* when the guard passes, `client._fetch_resource(owner, id_, instance)`
  passes three positional arguments to
  `Client._fetch_resource(self, resource, type_=None)` (client.py line 349),
  which raises `TypeError` before any request is made. -/
def Property.get {V : Type} (p : Property V) (r : Resource V) :
    Except AttrGetError V × Bool :=
  let data := p.get_data r
  if data.needs_fetch then
    if r.hasClient then (Except.error AttrGetError.typeError, true)
    else (Except.ok data.local_value, false)
  else (Except.ok data.local_value, false)

/-- Model of `_IdProperty.__get__`: returns the store's effective value directly and
never attempts a fetch (the Boolean, always `false`, records that no fetch
call site exists on this path). -/
def Property.id_get {V : Type} (p : Property V) (r : Resource V) : V × Bool :=
  ((p.get_data r).local_value, false)

/-- Model of `_Property.__set__` as a state-returning operation: raises
`AttributeError` when the descriptor is not writable (before touching the
store), otherwise assigns into the local slot. -/
def Property.set {V : Type} (p : Property V) (r : Resource V) (v : V) :
    Except AttrSetError Unit × Resource V :=
  if p.writable then
    let data := { p.get_data r with localValue := some v }
    (Except.ok (), { r with properties := setProp r.properties p.json_name data })
  else (Except.error AttrSetError.notWritable, r)

/-- Model of `_Property._update`: if the wire key is present in the payload, decode and
assign into the remote slot; otherwise leave the store untouched. -/
def Property.update {V : Type} (p : Property V) (r : Resource V)
    (json : List (String × J)) : Resource V :=
  match lookupKey json p.json_name with
  | some v =>
    let data := { p.get_data r with remoteValue := some (p.from_json v) }
    { r with properties := setProp r.properties p.json_name data }
  | none => r

/-- Model of `_EmbeddedProperty._update`: same as `_Property._update`, but the key is
looked up inside `json.get('_embedded', {})` rather than at the top level. -/
def Property.embedded_update {V : Type} (p : Property V) (r : Resource V)
    (json : List (String × J)) : Resource V :=
  match lookupKey (embeddedObject json) p.json_name with
  | some v =>
    let data := { p.get_data r with remoteValue := some (p.from_json v) }
    { r with properties := setProp r.properties p.json_name data }
  | none => r

/-- Model of `_Property._serialise`: writes the encoded effective value under the wire
key at the top level of the output payload.  (The source guards on the
effective value not being `_UNKNOWN`; every descriptor's `default` is an
ordinary value, never the sentinel, so the effective value is never the
sentinel and the guard always holds.) -/
def Property.serialise {V : Type} (p : Property V) (r : Resource V)
    (json : List (String × J)) : List (String × J) :=
  jsonSet json p.json_name (p.to_json (p.get_data r).local_value)

/-- Serialisation of an `_EmbeddedProperty`: the class declares no `_serialise`
override (the embedded-aware version in the source, model.py lines 107-110,
is commented out into a string literal), so instances use the inherited
`_Property._serialise`, writing at the top level of the payload. -/
def Property.embedded_serialise {V : Type} (p : Property V) (r : Resource V)
    (json : List (String × J)) : List (String × J) :=
  jsonSet json p.json_name (p.to_json (p.get_data r).local_value)

/-- One descriptor's slice of `_Resource._update` (the entity-level
`applyRemote`): `self._client = client` (attaching the fetch collaborator)
followed by the property's `_update` against the payload. -/
def Resource.apply_remote {V : Type} (r : Resource V) (p : Property V)
    (json : List (String × J)) : Resource V :=
  p.update { r with hasClient := true } json

/-- Model of `_Property(json_name)` with every other constructor argument defaulted as
in `_Property.__init__`: identity decode/encode, default `None`, not
writable. -/
def mkProperty (json_name : String) : Property J :=
  { json_name := json_name
    from_json := fun v => v
    to_json := fun v => v
    default := J.null
    writable := false }

/-- Model of `BaseImage.id = _IdProperty('id')` (model.py line 262): an `_IdProperty`
adds no constructor state of its own, so this is `_Property.__init__` with
only the wire key supplied. -/
def idProperty : Property J := mkProperty "id"

/-- Model of `BaseImage.name = _Property('name')` (model.py line 263). -/
def nameProperty : Property J := mkProperty "name"

/-- Model of `Model.ports = _EmbeddedProperty('ports', ...)` (model.py line 286),
with the decode/encode kept as JSON-level identities (the `Port`
deserialisation is irrelevant to where the value is read from / written
to). -/
def portsProperty : Property J :=
  { json_name := "ports"
    from_json := fun v => v
    to_json := fun v => v
    default := J.arr []
    writable := false }

/-! ## The paged resource collection -/

/-- One page of results (`_ResourceList`): the deserialised items plus the
page's metadata, extracted from the payload's `skip` / `limit` / `count` /
`totalcount` keys.  In the source these come from `json.get(..., None)` and
could be absent; a well-formed server page always carries them (a missing one
would make `_ResourceCollection._load`'s arithmetic raise `TypeError`), so
they are modelled as present. -/
structure ResourceList (α : Type) where
  items : List α
  skip : Nat
  limit : Nat
  count : Nat
  total_count : Nat
  deriving DecidableEq

/-- The fetch collaborator as `_ResourceCollection._load` uses it:
`self._client._get_resources(self._type, skip, self._page_size, None)` —
takes the requested offset and the collection's current page size (`none` =
ask for the server default), and either returns a page or raises
(`RequestError` / `ServerError`, abstracted as `ε`). -/
abbrev Fetcher (ε α : Type) : Type := Int → Option Nat → Except ε (ResourceList α)

/-- Mutable state of a `_ResourceCollection`: `_page_size`, `_length` and
`_items` (the backing array; `none` entries model `_UNKNOWN` slots, and an
absent array models `_items is None`). -/
structure ResourceCollection (α : Type) where
  page_size : Option Nat := none
  length : Option Nat := none
  items : Option (List (Option α)) := none
  deriving DecidableEq

/-- Python list index resolution for `l[i]`: negative indices address from
the end of the list; `none` models the `IndexError` raised when the index is
out of range on either side. -/
def pyIdx (len : Nat) (i : Int) : Option Nat :=
  if 0 ≤ i then (if i < (len : Int) then some i.toNat else none)
  else (if -(len : Int) ≤ i then some (len - i.natAbs) else none)

/-- Python list subscription `l[i]` (with Python's negative-index
semantics). -/
def pyGetElem {β : Type} (l : List β) (i : Int) : Option β :=
  match pyIdx l.length i with
  | some n => l.get? n
  | none => none

/-- Python slice assignment `l[a:b] = xs` for non-negative bounds: both
indices are clamped to the list length (and the upper one to at least the
lower), the addressed segment is removed and `xs` is spliced in. -/
def spliceAssign {α : Type} (l : List (Option α)) (a b : Nat) (xs : List α) :
    List (Option α) :=
  let lo := min a l.length
  let hi := max lo (min b l.length)
  l.take lo ++ xs.map some ++ l.drop hi

/-- The state change of `_ResourceCollection._load` after a successful fetch:
`_length = page.total_count`; `_page_size = page.limit`; if the backing array
is absent, allocate `[_UNKNOWN] * _length`; then splice the page's items into
`self._items[page.skip : page.skip + page.count]`. -/
def ResourceCollection.applyPage {α : Type} (s : ResourceCollection α)
    (page : ResourceList α) : ResourceCollection α :=
  let backing :=
    match s.items with
    | none => List.replicate page.total_count (none : Option α)
    | some l => l
  { page_size := some page.limit
    length := some page.total_count
    items := some (spliceAssign backing page.skip (page.skip + page.count) page.items) }

/-- Model of `_ResourceCollection._load`: one fetch through the collaborator, then the
state update of `applyPage`; a raising fetch propagates and nothing is
mutated (all assignments in the source come after the fetch returns). -/
def ResourceCollection.load {ε α : Type} (f : Fetcher ε α) (skip : Int)
    (s : ResourceCollection α) : Except ε (ResourceCollection α) :=
  match f skip s.page_size with
  | Except.error e => Except.error e
  | Except.ok page => Except.ok (s.applyPage page)

/-- Model of `_ResourceCollection._is_item_loaded`:
`(self._items is not None) and (self._items[index] is not _UNKNOWN)`.
The `Except Unit` captures the `IndexError` that the subscription can
raise. -/
def ResourceCollection.is_item_loaded {α : Type} (s : ResourceCollection α) (i : Int) :
    Except Unit Bool :=
  match s.items with
  | none => Except.ok false
  | some l =>
    match pyGetElem l i with
    | none => Except.error ()
    | some slot => Except.ok slot.isSome

/-- The ways `_ResourceCollection.__getitem__` can fail: a propagated fetch
exception, the re-raised `IndexError` (the spec's `IndexOutOfRangeError`),
the failure of `assert result is not _UNKNOWN` (`AssertionError`, the spec's
`ProtocolError` on an inconsistent page), and the `TypeError` /
`ZeroDivisionError` Python would raise on a `None` or zero page size. -/
inductive GetItemError (ε : Type) : Type
  | fetch (e : ε)
  | indexError
  | assertionError
  | typeError
  | zeroDivisionError
  deriving DecidableEq

/-- The tail of `__getitem__`: `result = self._items[index]`,
`assert result is not _UNKNOWN`, `return result` — with an `IndexError`
caught and re-raised by the surrounding handler. -/
def ResourceCollection.finishGet {ε α : Type} (s : ResourceCollection α) (i : Int) :
    Except (GetItemError ε) α :=
  match s.items with
  | none => Except.error GetItemError.typeError
  | some l =>
    match pyGetElem l i with
    | none => Except.error GetItemError.indexError
    | some none => Except.error GetItemError.assertionError
    | some (some a) => Except.ok a

/-- The part of `__getitem__` after the (possible) page-size-discovery load:
the second `_is_item_loaded` check, the aligned load
`self._load((index // self._page_size) * self._page_size)` when the item is
still missing, and the final subscription.  `tr` accumulates the fetch calls
made so far. -/
def ResourceCollection.getitemStepB {ε α : Type} (f : Fetcher ε α) (i : Int)
    (s : ResourceCollection α) (tr : List (Int × Option Nat)) :
    Except (GetItemError ε) α × ResourceCollection α × List (Int × Option Nat) :=
  match s.is_item_loaded i with
  | Except.error _ => (Except.error GetItemError.indexError, s, tr)
  | Except.ok true => (ResourceCollection.finishGet s i, s, tr)
  | Except.ok false =>
    match s.page_size with
    | none => (Except.error GetItemError.typeError, s, tr)
    | some ps =>
      if ps = 0 then (Except.error GetItemError.zeroDivisionError, s, tr)
      else
        match f (i.fdiv ps * ps) (some ps) with
        | Except.error e =>
          (Except.error (GetItemError.fetch e), s, tr ++ [(i.fdiv ps * ps, some ps)])
        | Except.ok page =>
          (ResourceCollection.finishGet (s.applyPage page) i, s.applyPage page,
           tr ++ [(i.fdiv ps * ps, some ps)])

/-- Model of `_ResourceCollection.__getitem__`, returning the result, the final
collection state, and the list of fetch calls (offset, requested limit) that
were made.  Structure of the source: if the item is not loaded, first load
page 0 when the page size is unknown, then (if still not loaded) load the
item's aligned page; finally subscript the backing array and assert the slot
is filled; any `IndexError` raised inside is re-raised (with a message) as an
`IndexError`. -/
def ResourceCollection.getitem {ε α : Type} (f : Fetcher ε α) (i : Int)
    (s : ResourceCollection α) :
    Except (GetItemError ε) α × ResourceCollection α × List (Int × Option Nat) :=
  match s.is_item_loaded i with
  | Except.error _ => (Except.error GetItemError.indexError, s, [])
  | Except.ok true => (ResourceCollection.finishGet s i, s, [])
  | Except.ok false =>
    match s.page_size with
    | some _ => ResourceCollection.getitemStepB f i s []
    | none =>
      match f 0 none with
      | Except.error e => (Except.error (GetItemError.fetch e), s, [(0, none)])
      | Except.ok page =>
        ResourceCollection.getitemStepB f i (s.applyPage page) [(0, none)]

/-- Model of `_ResourceCollection.__len__`: loads page 0 when `_length` is unknown —
and then falls off the end of the function.  There is no `return` statement
on any path, so the method returns Python `None` (modelled as `Option.none`)
always. -/
def ResourceCollection.len {ε α : Type} (f : Fetcher ε α) (s : ResourceCollection α) :
    Except ε (Option Nat) × ResourceCollection α × List (Int × Option Nat) :=
  match s.length with
  | none =>
    match f 0 s.page_size with
    | Except.error e => (Except.error e, s, [(0, s.page_size)])
    | Except.ok page => (Except.ok none, s.applyPage page, [(0, s.page_size)])
  | some _ => (Except.ok none, s, [])


/-! ## Concrete instances used in counterexamples and witnesses -/

/-- A `BaseImage` instance with a client attached and identity unknown (a
fresh instance whose `_client` was assigned): the failing input of C1. -/
def c1UnknownId : Resource J := { properties := [], hasClient := true }

/-- A `BaseImage` instance with a client attached and identity known
(`id = "abc"` applied from a remote payload). -/
def c1KnownId : Resource J :=
  { properties := [("id", { property := idProperty, remoteValue := some (J.str "abc") })]
    hasClient := true }

/-- A writable `_Property('name', writable=True)`-style descriptor. -/
def writableName : Property J := { mkProperty "name" with writable := true }

/-- A `Model` instance whose `ports` store holds a locally-set value. -/
def c6Entity : Resource J :=
  { properties := [("ports", { property := portsProperty, localValue := some (J.str "x") })]
    hasClient := false }

/-! ## Dictionary lemmas -/

theorem lookupProp_setProp {V : Type} (props : List (String × PropertyData V))
    (k : String) (d : PropertyData V) :
    lookupProp (setProp props k d) k = some d := by
  induction props with
  | nil => simp [setProp, lookupProp]
  | cons hd tl ih =>
    obtain ⟨k1, d1⟩ := hd
    cases h : (k1 == k) with
    | true => simp [setProp, lookupProp, h]
    | false => simp [setProp, lookupProp, h, ih]

theorem get_data_set {V : Type} (p : Property V) (r : Resource V) (d : PropertyData V) :
    p.get_data { r with properties := setProp r.properties p.json_name d } = d := by
  simp [Property.get_data, lookupProp_setProp]

theorem lookupKey_jsonSet_self (json : List (String × J)) (k : String) (v : J) :
    lookupKey (jsonSet json k v) k = some v := by
  induction json with
  | nil => simp [jsonSet, lookupKey]
  | cons hd tl ih =>
    obtain ⟨k1, v1⟩ := hd
    cases h : (k1 == k) with
    | true => simp [jsonSet, lookupKey, h]
    | false => simp [jsonSet, lookupKey, h, ih]

theorem lookupKey_jsonSet_ne (json : List (String × J)) (k k1 : String) (v : J)
    (h : k1 ≠ k) :
    lookupKey (jsonSet json k v) k1 = lookupKey json k1 := by
  have hk : (k == k1) = false := by simp [Ne.symm h]
  induction json with
  | nil => simp [jsonSet, lookupKey, hk]
  | cons hd tl ih =>
    obtain ⟨k2, v2⟩ := hd
    cases h2 : (k2 == k) with
    | true =>
      have : (k2 == k1) = false := by
        have := eq_of_beq h2
        subst this
        exact hk
      simp [jsonSet, lookupKey, h2, hk, this]
    | false => simp [jsonSet, lookupKey, h2, ih]

/-! ## Claim theorems: the property layer -/

/-- C1 (code bug): reading a non-identity field whose remote value is unknown
on an entity with an attached client.  The guard `None not in (id, client)`
in `_Property.__get__` tests the Python builtin `id` — never `None` — instead
of the fetched identity `id_`, so a fetch is attempted even while the
identity is unknown; and the attempted call
`client._fetch_resource(owner, id_, instance)` has the wrong arity for
`Client._fetch_resource(self, resource, type_=None)` and raises `TypeError`,
so no read ever performs a successful fetch-and-apply.  The claim is
contradicted on both counts; without a client attached no fetch is
attempted. -/
theorem c1_broken_lazy_fetch :
    nameProperty.get c1UnknownId = (Except.error AttrGetError.typeError, true)
  ∧ nameProperty.get c1KnownId = (Except.error AttrGetError.typeError, true)
  ∧ nameProperty.get ({ properties := [], hasClient := false } : Resource J)
      = (Except.ok J.null, false) := by
  refine ⟨rfl, rfl, rfl⟩

/-- C5: the effective value a field value store reports is the local value if
present, else the remote value if present, else the descriptor's default;
consequently a writable field that was just set reads back as the set value
before any fetch (no collaborator attached), and a set followed by a remote
update carrying the same wire key still reads back as the locally-set value
("local wins"). -/
theorem c5_effective_value_precedence {V : Type} (p : Property V) (data : PropertyData V)
    (r : Resource V) (v x y : V) (json : List (String × J)) (w : J) :
    (data.localValue = some x → data.local_value = x)
  ∧ (data.localValue = none → data.remoteValue = some y → data.local_value = y)
  ∧ (data.localValue = none → data.remoteValue = none →
      data.local_value = data.property.default)
  ∧ (p.writable = true → r.hasClient = false →
      (p.get (p.set r v).2).1 = Except.ok v)
  ∧ (p.writable = true → lookupKey json p.json_name = some w →
      (p.get (Resource.apply_remote (p.set r v).2 p json)).1 = Except.ok v) := by
  refine ⟨?_, ?_, ?_, ?_, ?_⟩
  · intro h
    simp [PropertyData.local_value, h]
  · intro h1 h2
    simp [PropertyData.local_value, h1, h2]
  · intro h1 h2
    simp [PropertyData.local_value, h1, h2]
  · intro hw hc
    simp only [Property.set, hw, if_true]
    simp only [Property.get, get_data_set]
    cases h : ({ p.get_data r with localValue := some v } : PropertyData V).needs_fetch <;>
      simp [h, hc, PropertyData.local_value]
  · intro hw hkey
    simp only [Property.set, hw, if_true, Resource.apply_remote, Property.update]
    simp only [Property.get_data, lookupProp_setProp]
    simp [hkey, Property.get, Property.get_data, lookupProp_setProp,
      PropertyData.needs_fetch, PropertyData.local_value]

/-- C5 witness: a concrete writable descriptor set locally to `"local"`, then
remotely updated to `"remote"`, still reads `"local"`. -/
theorem c5_witness :
    (writableName.get (Resource.apply_remote
        (writableName.set ({} : Resource J) (J.str "local")).2
        writableName [("name", J.str "remote")])).1 = Except.ok (J.str "local") :=
  (c5_effective_value_precedence writableName { property := writableName } {}
      (J.str "local") J.null J.null [("name", J.str "remote")] (J.str "remote")).2.2.2.2
    rfl rfl

/-- C6 counterexample: serialising an `_EmbeddedProperty` (`Model.ports`)
whose store holds a local value writes the wire key at the TOP LEVEL of the
payload and creates no `_embedded` sub-object — the embedded-aware
`_serialise` in the source is commented out — contradicting the claim that
`toWire` writes into the embedded sub-object rather than the top level. -/
theorem c6_counterexample :
    portsProperty.embedded_serialise c6Entity [] = [("ports", J.str "x")]
  ∧ lookupKey (portsProperty.embedded_serialise c6Entity []) "_embedded" = none := by
  refine ⟨rfl, rfl⟩

/-- C6 amended: `applyRemote` for a Nested (embedded) descriptor reads the
field's value from the `_embedded` sub-object (assigning into the remote slot
exactly when the wire key is present there, untouched otherwise), while
`toWire` writes the encoded effective value at the payload's TOP LEVEL under
the wire key (leaving any `_embedded` entry of the payload alone), because
the embedded serialisation override is commented out in the source. -/
theorem c6_embedded_envelope {V : Type} (p : Property V) (r : Resource V)
    (json fields : List (String × J)) (v : J) :
    (lookupKey json "_embedded" = some (J.obj fields) →
      lookupKey fields p.json_name = some v →
      (p.get_data (p.embedded_update r json)).remoteValue = some (p.from_json v))
  ∧ (lookupKey (embeddedObject json) p.json_name = none →
      p.embedded_update r json = r)
  ∧ (lookupKey (p.embedded_serialise r json) p.json_name
      = some (p.to_json (p.get_data r).local_value))
  ∧ (p.json_name ≠ "_embedded" →
      lookupKey (p.embedded_serialise r json) "_embedded" = lookupKey json "_embedded") := by
  refine ⟨?_, ?_, ?_, ?_⟩
  · intro h1 h2
    simp only [Property.embedded_update, embeddedObject, h1, h2]
    simp [Property.get_data, lookupProp_setProp]
  · intro h
    simp [Property.embedded_update, h]
  · simp [Property.embedded_serialise, lookupKey_jsonSet_self]
  · intro h
    simp [Property.embedded_serialise, lookupKey_jsonSet_ne _ _ _ _ (Ne.symm h)]

/-- C6 witness: a concrete HAL payload carrying `ports` inside `_embedded` is
read into the remote slot. -/
theorem c6_witness :
    (portsProperty.get_data (portsProperty.embedded_update ({} : Resource J)
        [("_embedded", J.obj [("ports", J.arr [J.int 1])])])).remoteValue
      = some (J.arr [J.int 1]) :=
  (c6_embedded_envelope portsProperty {} [("_embedded", J.obj [("ports", J.arr [J.int 1])])]
      [("ports", J.arr [J.int 1])] (J.arr [J.int 1])).1 rfl rfl

/-- C8: assigning to a non-writable field raises `AttributeError` (the spec's
`NotWritableError`) and leaves the entity — in particular both slots of the
field's store — exactly as it was (the check precedes any mutation); for a
writable descriptor the assignment succeeds and stores the value into the
local slot, leaving the remote slot unchanged. -/
theorem c8_set_writability {V : Type} (p : Property V) (r : Resource V) (v : V) :
    (p.writable = false → p.set r v = (Except.error AttrSetError.notWritable, r))
  ∧ (p.writable = true →
      (p.set r v).1 = Except.ok ()
      ∧ (p.get_data (p.set r v).2).localValue = some v
      ∧ (p.get_data (p.set r v).2).remoteValue = (p.get_data r).remoteValue) := by
  constructor
  · intro h
    simp [Property.set, h]
  · intro h
    simp [Property.set, h, get_data_set]

/-- C8 witness: assigning to the non-writable `name` descriptor fails and
leaves the entity unchanged; assigning to a writable variant succeeds. -/
theorem c8_witness :
    nameProperty.set ({} : Resource J) (J.int 3)
        = (Except.error AttrSetError.notWritable, ({} : Resource J))
  ∧ (writableName.set ({} : Resource J) (J.int 3)).1 = Except.ok () :=
  ⟨(c8_set_writability nameProperty {} (J.int 3)).1 rfl,
   ((c8_set_writability writableName {} (J.int 3)).2 rfl).1⟩

/-- C10: `BaseImage.id = _IdProperty('id')` is constructed with
`writable=False`, so every assignment to the id attribute raises and leaves
the entity unchanged; reading the id (`_IdProperty.__get__`) never attempts a
fetch; and applying a remote payload that carries the `id` key is what sets
the identity's remote slot (the only write path into the store). -/
theorem c10_identity_descriptor :
    idProperty.writable = false
  ∧ (∀ (r : Resource J) (v : J),
      (idProperty.set r v).1 = Except.error AttrSetError.notWritable
      ∧ (idProperty.set r v).2 = r)
  ∧ (∀ (r : Resource J), (idProperty.id_get r).2 = false)
  ∧ (∀ (r : Resource J) (j : J) (rest : List (String × J)),
      (idProperty.get_data (idProperty.update r (("id", j) :: rest))).remoteValue
        = some j) := by
  refine ⟨rfl, ?_, ?_, ?_⟩
  · intro r v
    constructor <;> simp [Property.set, idProperty, mkProperty]
  · intro r
    rfl
  · intro r j rest
    simp [Property.update, lookupKey, idProperty, mkProperty, Property.get_data,
      lookupProp_setProp]


/-! ## Collection-layer lemmas -/

theorem pyIdx_none (len : Nat) (i : Int)
    (h : (len : Int) ≤ i ∨ i < -(len : Int)) : pyIdx len i = none := by
  unfold pyIdx
  rcases h with h | h
  · rw [if_pos (by omega), if_neg (by omega)]
  · rw [if_neg (by omega), if_neg (by omega)]

theorem spliceAssign_nil {α : Type} (l : List (Option α)) (a : Nat) :
    spliceAssign l a a [] = l := by
  unfold spliceAssign
  simp

theorem spliceAssign_length {α : Type} (l : List (Option α)) (a b : Nat) (xs : List α)
    (h1 : b ≤ l.length) (h2 : xs.length = b - a) (h3 : a ≤ b) :
    (spliceAssign l a b xs).length = l.length := by
  unfold spliceAssign
  simp only [List.length_append, List.length_take, List.length_drop, List.length_map]
  omega

theorem applyPage_page_size {α : Type} (s : ResourceCollection α) (p : ResourceList α) :
    (s.applyPage p).page_size = some p.limit := rfl

theorem applyPage_length {α : Type} (s : ResourceCollection α) (p : ResourceList α) :
    (s.applyPage p).length = some p.total_count := rfl

theorem getitemStepB_trace {ε α : Type} (f : Fetcher ε α) (i : Int)
    (s : ResourceCollection α) (tr : List (Int × Option Nat)) :
    (ResourceCollection.getitemStepB f i s tr).2.2 = tr
    ∨ ∃ c, (ResourceCollection.getitemStepB f i s tr).2.2 = tr ++ [c] := by
  unfold ResourceCollection.getitemStepB
  split
  · left; rfl
  · left; rfl
  · split
    · left; rfl
    · split
      · left; rfl
      · split
        · right; exact ⟨_, rfl⟩
        · right; exact ⟨_, rfl⟩

theorem getitemStepB_trace_len {ε α : Type} (f : Fetcher ε α) (i : Int)
    (s : ResourceCollection α) (tr : List (Int × Option Nat)) :
    (ResourceCollection.getitemStepB f i s tr).2.2.length ≤ tr.length + 1 := by
  rcases getitemStepB_trace f i s tr with h | ⟨c, h⟩ <;> simp [h]

theorem getitemStepB_trace_head {ε α : Type} (f : Fetcher ε α) (i : Int)
    (s : ResourceCollection α) (c : Int × Option Nat) (tr : List (Int × Option Nat)) :
    (ResourceCollection.getitemStepB f i s (c :: tr)).2.2.head? = some c := by
  rcases getitemStepB_trace f i s (c :: tr) with h | ⟨d, h⟩ <;> simp [h]

/-! ## Concrete fetchers and states for the collection claims -/

/-- The C2 failing input: a server whose first page reports
`totalcount=237, skip=0, limit=50, count=50`. -/
def f237 : Fetcher Unit Nat := fun _ _ =>
  Except.ok { items := List.range 50, skip := 0, limit := 50, count := 50, total_count := 237 }

/-- The C4 counterexample: a one-element collection delivered whole by page 0
(`totalcount=1, limit=5, count=1`). -/
def fOneItem : Fetcher Unit Nat := fun _ _ =>
  Except.ok { items := [7], skip := 0, limit := 5, count := 1, total_count := 1 }

/-- The C4 witness fetcher: `totalcount=1, limit=3, count=1`. -/
def fC4W : Fetcher Unit Nat := fun _ _ =>
  Except.ok { items := [5], skip := 0, limit := 3, count := 1, total_count := 1 }

/-- The C3 witness fetcher: page `skip=4, limit=2, count=2, totalcount=6`. -/
def fC3W : Fetcher Unit Nat := fun _ _ =>
  Except.ok { items := [9, 9], skip := 4, limit := 2, count := 2, total_count := 6 }

/-- The C3 witness state: page size 2 known, six slots allocated, none
loaded. -/
def sC3W : ResourceCollection Nat :=
  { page_size := some 2, length := some 6, items := some (List.replicate 6 none) }

/-- The C7 witness fetcher: an inconsistent server page with `count=0`
although `totalcount=1`. -/
def fEmptyPage : Fetcher Unit Nat := fun _ _ =>
  Except.ok { items := [], skip := 0, limit := 1, count := 0, total_count := 1 }

/-- The C7 witness state: one slot, unloaded, page size 1 known. -/
def sC7 : ResourceCollection Nat :=
  { page_size := some 1, length := some 1, items := some [none] }

/-- A fetcher whose every request raises. -/
def fFail : Fetcher Unit Nat := fun _ _ => Except.error ()

/-- An arbitrary page (used only to instantiate unused binders). -/
def dummyPage : ResourceList Nat :=
  { items := [], skip := 0, limit := 1, count := 0, total_count := 0 }

/-! ## Claim theorems: the paged collection -/

/-- C2 (code bug): `_ResourceCollection.__len__` performs the page-0 load
when `_length` is unknown (learning `totalcount=237` and the default page
size) and performs no further fetch once `_length` is known — but it has no
`return` statement, so it returns Python `None` (never `237`) on every path;
`len()` on the collection therefore raises `TypeError` instead of returning
the total length. -/
theorem c2_len_returns_none :
    (ResourceCollection.len f237 ({} : ResourceCollection Nat)).1 = Except.ok none
  ∧ (ResourceCollection.len f237 ({} : ResourceCollection Nat)).2.1.length = some 237
  ∧ (ResourceCollection.len f237 ({} : ResourceCollection Nat)).2.2
      = [((0 : Int), (none : Option Nat))]
  ∧ (ResourceCollection.len f237
      ((ResourceCollection.len f237 ({} : ResourceCollection Nat)).2.1)).1 = Except.ok none
  ∧ (ResourceCollection.len f237
      ((ResourceCollection.len f237 ({} : ResourceCollection Nat)).2.1)).2.2 = [] := by
  refine ⟨rfl, rfl, rfl, rfl, rfl⟩

/-- C3: the paging algorithm of `__getitem__` / `_load`.  In one call:
at most two pages are fetched; the first fetch is at offset 0 with the
server-default limit exactly when the page size is unknown; when the item is
still unloaded after that (or the page size was already known), exactly one
aligned fetch at `floor(i/pageSize)*pageSize` with length `pageSize` happens;
a loaded slot triggers no fetch and no state change; and every successful
page fetch sets `totalLength = page.totalCount`, `pageSize = page.limit`,
allocates the backing array (length `totalLength`, all `UNLOADED`) when it
was absent, and splices the page's items in at `page.skip` for `page.count`
entries. -/
theorem c3_paging_algorithm {ε α : Type} (f : Fetcher ε α) (s : ResourceCollection α)
    (i sk : Int) (page : ResourceList α) :
    (ResourceCollection.getitem f i s).2.2.length ≤ 2
  ∧ (s.is_item_loaded i = Except.ok true →
      ResourceCollection.getitem f i s = (ResourceCollection.finishGet s i, s, []))
  ∧ (s.is_item_loaded i = Except.ok false → s.page_size = none →
      (ResourceCollection.getitem f i s).2.2.head? = some ((0 : Int), (none : Option Nat)))
  ∧ (∀ ps : Nat, s.is_item_loaded i = Except.ok false → s.page_size = some ps → ps ≠ 0 →
      (ResourceCollection.getitem f i s).2.2 = [(i.fdiv ps * ps, some ps)])
  ∧ (s.is_item_loaded i = Except.ok false → s.page_size = none →
      f 0 none = Except.ok page →
      (s.applyPage page).is_item_loaded i = Except.ok false → page.limit ≠ 0 →
      (ResourceCollection.getitem f i s).2.2
        = [((0 : Int), (none : Option Nat)),
           (i.fdiv page.limit * page.limit, some page.limit)])
  ∧ (f sk s.page_size = Except.ok page →
      ResourceCollection.load f sk s = Except.ok (s.applyPage page))
  ∧ ((s.applyPage page).length = some page.total_count
      ∧ (s.applyPage page).page_size = some page.limit
      ∧ (s.items = none → (s.applyPage page).items
          = some (spliceAssign (List.replicate page.total_count none)
              page.skip (page.skip + page.count) page.items))
      ∧ (∀ l : List (Option α), s.items = some l → (s.applyPage page).items
          = some (spliceAssign l page.skip (page.skip + page.count) page.items))) := by
  refine ⟨?_, ?_, ?_, ?_, ?_, ?_, ?_⟩
  · unfold ResourceCollection.getitem
    split
    · simp
    · simp
    · split
      · exact le_trans (getitemStepB_trace_len _ _ _ _) (by decide)
      · split
        · simp
        · exact le_trans (getitemStepB_trace_len _ _ _ _) (by decide)
  · intro h
    unfold ResourceCollection.getitem
    rw [h]
  · intro h1 h2
    simp only [ResourceCollection.getitem, h1, h2]
    cases hf : f 0 none with
    | error e => rfl
    | ok pg => exact getitemStepB_trace_head _ _ _ _ _
  · intro ps h1 h2 h3
    simp only [ResourceCollection.getitem, ResourceCollection.getitemStepB, h1, h2, if_neg h3]
    cases hf : f (i.fdiv ps * ps) (some ps) <;> simp [hf]
  · intro h1 h2 hf h4 h5
    simp only [ResourceCollection.getitem, ResourceCollection.getitemStepB, h1, h2, hf, h4,
      applyPage_page_size, if_neg h5]
    cases hf2 : f (i.fdiv page.limit * page.limit) (some page.limit) <;> simp [hf2]
  · intro hf
    unfold ResourceCollection.load
    rw [hf]
  · refine ⟨rfl, rfl, ?_, ?_⟩
    · intro h
      simp only [ResourceCollection.applyPage, h]
    · intro l h
      simp only [ResourceCollection.applyPage, h]

/-- C3 witness: with page size 2 known and slot 5 unloaded, `get(5)` makes
exactly the one aligned fetch at offset 4 with limit 2. -/
theorem c3_witness :
    (ResourceCollection.getitem fC3W 5 sC3W).2.2 = [((4 : Int), some 2)] := by
  have h := (c3_paging_algorithm fC3W sC3W 5 0 dummyPage).2.2.2.1 2 rfl rfl (by decide)
  rw [h]
  decide

/-- C4 counterexample: on a fully-loaded one-element collection,
`get(-1)` returns the element (Python negative indexing) instead of failing
with `IndexOutOfRangeError`, contradicting "get(i) fails iff i < 0 or
i >= totalLength". -/
theorem c4_counterexample :
    (ResourceCollection.getitem fOneItem (-1) ({} : ResourceCollection Nat)).1
      = Except.ok 7 := by
  rfl

/-- C4 amended: the bounds check is Python's: `get(i)` fails with
`IndexError` (the spec's `IndexOutOfRangeError`) when `i ≥ totalLength` or
`i < -totalLength`, with the true remote length learned by a page-0 load
first when unknown (in particular `get(totalLength)` fails); an index —
including a negative one — that resolves to a loaded slot returns that
element with no fetch instead of failing. -/
theorem c4_bounds_amended {ε α : Type} (f : Fetcher ε α) (s : ResourceCollection α)
    (i : Int) (page : ResourceList α) (l : List (Option α)) (a : α) :
    (s.page_size = none → s.items = none →
      f 0 none = Except.ok page →
      page.count = page.items.length →
      page.skip + page.count ≤ page.total_count →
      ((page.total_count : Int) ≤ i ∨ i < -(page.total_count : Int)) →
      (ResourceCollection.getitem f i s).1 = Except.error GetItemError.indexError)
  ∧ (s.items = some l → pyGetElem l i = some (some a) →
      ResourceCollection.getitem f i s = (Except.ok a, s, [])) := by
  constructor
  · intro h1 h2 hf hcount hbound hi
    have hL : s.is_item_loaded i = Except.ok false := by
      simp only [ResourceCollection.is_item_loaded, h2]
    have hlen : (spliceAssign (List.replicate page.total_count (none : Option α))
        page.skip (page.skip + page.count) page.items).length = page.total_count := by
      rw [spliceAssign_length]
      · exact List.length_replicate _ _
      · rw [List.length_replicate]; omega
      · omega
      · omega
    have hitems : (s.applyPage page).items
        = some (spliceAssign (List.replicate page.total_count none)
            page.skip (page.skip + page.count) page.items) := by
      simp only [ResourceCollection.applyPage, h2]
    have hnone : pyGetElem (spliceAssign (List.replicate page.total_count (none : Option α))
        page.skip (page.skip + page.count) page.items) i = none := by
      unfold pyGetElem
      rw [hlen, pyIdx_none _ _ hi]
    have hL2 : (s.applyPage page).is_item_loaded i = Except.error () := by
      simp only [ResourceCollection.is_item_loaded, hitems, hnone]
    simp only [ResourceCollection.getitem, hL, h1, hf]
    simp only [ResourceCollection.getitemStepB, hL2]
  · intro h1 h2
    have hL : s.is_item_loaded i = Except.ok true := by
      simp only [ResourceCollection.is_item_loaded, h1, h2, Option.isSome]
    simp only [ResourceCollection.getitem, hL, ResourceCollection.finishGet, h1, h2]

/-- C4 witness: on a fresh one-element collection, `get(1)` — i.e.
`get(totalLength)` — fails with `IndexError` after the page-0 load. -/
theorem c4_witness :
    (ResourceCollection.getitem fC4W 1 ({} : ResourceCollection Nat)).1
      = Except.error GetItemError.indexError :=
  (c4_bounds_amended fC4W ({} : ResourceCollection Nat) 1
      { items := [5], skip := 0, limit := 3, count := 1, total_count := 1 } [] 0).1
    rfl rfl rfl rfl (by decide) (Or.inl (by decide))

/-- C7: when the aligned page fetch triggered by `get(i)` returns a page
whose `count` is 0 (and so carries no items) although slot `i` lies in the
fetched window, `get(i)` fails with `AssertionError` — the source's
`assert result is not _UNKNOWN`, realising the spec's `ProtocolError` for an
internally-inconsistent page — and terminates (the embedding is a total,
non-recursive function: there is no loop to diverge in). -/
theorem c7_zero_count_page {ε α : Type} (f : Fetcher ε α) (s : ResourceCollection α)
    (i : Int) (l : List (Option α)) (ps : Nat) (page : ResourceList α)
    (h1 : s.items = some l) (h2 : pyGetElem l i = some none)
    (h3 : s.page_size = some ps) (h4 : ps ≠ 0)
    (h5 : f (i.fdiv ps * ps) (some ps) = Except.ok page)
    (h6 : page.count = 0) (h7 : page.items = []) :
    (ResourceCollection.getitem f i s).1 = Except.error GetItemError.assertionError := by
  have hL : s.is_item_loaded i = Except.ok false := by
    simp only [ResourceCollection.is_item_loaded, h1, h2, Option.isSome]
  have hitems : (s.applyPage page).items = some l := by
    simp only [ResourceCollection.applyPage, h1, h6, h7, Nat.add_zero, spliceAssign_nil]
  simp only [ResourceCollection.getitem, ResourceCollection.getitemStepB, hL, h3,
    if_neg h4, h5, ResourceCollection.finishGet, hitems, h2]

/-- C7 witness: slot 0 unloaded, page size 1; the server answers the aligned
fetch with a `count=0` page; `get(0)` fails with the assertion error. -/
theorem c7_witness :
    (ResourceCollection.getitem fEmptyPage 0 sC7).1
      = Except.error GetItemError.assertionError :=
  c7_zero_count_page fEmptyPage sC7 0 [none] 1
    { items := [], skip := 0, limit := 1, count := 0, total_count := 1 }
    rfl rfl rfl (by decide) rfl rfl rfl

/-- C9: a raising page fetch propagates unmodified and mutates nothing.
`_load` re-raises the collaborator's exception with the collection state
untouched (every assignment in `_load` comes after the fetch returns); and
through `length()` and `get(i)` the error surfaces with the state and fetch
log exactly as they were just before the failing call — whether it was the
page-0 discovery fetch or the aligned fetch (possibly after a successful
page-0 load), so retrying the operation later is safe. -/
theorem c9_failed_fetch_atomicity {ε α : Type} (f : Fetcher ε α) (s : ResourceCollection α)
    (i sk : Int) (e : ε) (page : ResourceList α) :
    (f sk s.page_size = Except.error e → ResourceCollection.load f sk s = Except.error e)
  ∧ (s.length = none → f 0 s.page_size = Except.error e →
      ResourceCollection.len f s = (Except.error e, s, [((0 : Int), s.page_size)]))
  ∧ (s.is_item_loaded i = Except.ok false → s.page_size = none →
      f 0 none = Except.error e →
      ResourceCollection.getitem f i s
        = (Except.error (GetItemError.fetch e), s, [((0 : Int), (none : Option Nat))]))
  ∧ (∀ ps : Nat, s.is_item_loaded i = Except.ok false → s.page_size = some ps → ps ≠ 0 →
      f (i.fdiv ps * ps) (some ps) = Except.error e →
      ResourceCollection.getitem f i s
        = (Except.error (GetItemError.fetch e), s, [(i.fdiv ps * ps, some ps)]))
  ∧ (s.is_item_loaded i = Except.ok false → s.page_size = none →
      f 0 none = Except.ok page →
      (s.applyPage page).is_item_loaded i = Except.ok false → page.limit ≠ 0 →
      f (i.fdiv page.limit * page.limit) (some page.limit) = Except.error e →
      ResourceCollection.getitem f i s
        = (Except.error (GetItemError.fetch e), s.applyPage page,
           [((0 : Int), (none : Option Nat)),
            (i.fdiv page.limit * page.limit, some page.limit)])) := by
  refine ⟨?_, ?_, ?_, ?_, ?_⟩
  · intro hf
    unfold ResourceCollection.load
    rw [hf]
  · intro h1 hf
    simp only [ResourceCollection.len, h1, hf]
  · intro h1 h2 hf
    simp only [ResourceCollection.getitem, h1, h2, hf]
  · intro ps h1 h2 h3 hf
    simp only [ResourceCollection.getitem, ResourceCollection.getitemStepB, h1, h2,
      if_neg h3, hf, List.nil_append]
  · intro h1 h2 hf h4 h5 hf2
    simp only [ResourceCollection.getitem, ResourceCollection.getitemStepB, h1, h2, hf, h4,
      applyPage_page_size, if_neg h5, hf2, List.cons_append, List.nil_append]

/-- C9 witness: on a fresh collection whose fetcher raises, `get(0)`
propagates the error with the state exactly as before. -/
theorem c9_witness :
    ResourceCollection.getitem fFail 0 ({} : ResourceCollection Nat)
      = (Except.error (GetItemError.fetch ()), ({} : ResourceCollection Nat),
         [((0 : Int), (none : Option Nat))]) :=
  (c9_failed_fetch_atomicity fFail ({} : ResourceCollection Nat) 0 0 () dummyPage).2.2.1
    rfl rfl rfl

end ASClient
